import Mathlib

/-!
Shallow embedding of the JapanTDR survey-analysis pipeline
(`japan_market_analysis`), covering the scale recoder, top-box coding,
composite builder, mediation analyzer, nested-model comparison, factor
sign flip, segment gating and the positional column mapper.

Missing raw cells (`NaN` in pandas / `np.nan`) are modelled as `none`;
observed numeric cells as `some q` with `q : ℚ` (floats are rationals).
-/

namespace JapanTDR

/-! ## Scale Recoder (`src/process_raw_data.py`) -/

/-- Embeds `recode_funnel_variable(value, var_type='likert')` from
`src/process_raw_data.py` (lines 125-141): `NaN` and `99` return `NaN`;
otherwise a value `≤ 5` is mapped by `(x - 1) * 1.5 + 1`, and any other
value passes through unchanged. All call sites use the default
`var_type='likert'`. -/
def recode_funnel_variable (value : Option ℚ) : Option ℚ :=
  match value with
  | none => none
  | some v =>
    if v = 99 then none
    else if v ≤ 5 then some ((v - 1) * (3 / 2) + 1)
    else some v

/-- Embeds the per-cell effect of
`benefit_df = df[all_benefit_cols].replace(0, np.nan)` in
`src/brand_benefit_factor_analysis.py` (line 106): raw `0` becomes
missing, every other cell is unchanged. -/
def benefitClean (v : Option ℚ) : Option ℚ :=
  match v with
  | none => none
  | some x => if x = 0 then none else some x

/-- Embeds the per-cell cleaning in `src/sem_analysis_real_data.py`
(lines 44-47 and 58-62): both `0` and `99` are set to `NaN`. -/
def cleanRealData (v : Option ℚ) : Option ℚ :=
  match v with
  | none => none
  | some x => if x = 0 ∨ x = 99 then none else some x

/-! ## Top-box coding (`src/sem_penalized_logistic_topbox.py`) -/

/-- Embeds the cleaning step `raw_vals[(raw_vals < 1) | (raw_vals > 5)] = np.nan`
from `src/sem_penalized_logistic_topbox.py` (lines 135-137, 150-152). -/
def cleanOneToFive (v : Option ℚ) : Option ℚ :=
  match v with
  | none => none
  | some x => if x < 1 ∨ 5 < x then none else some x

/-- Embeds the top-box coding of `src/sem_penalized_logistic_topbox.py`
(lines 129-154): after cleaning to the 1-5 range, a cell becomes `1`
exactly when it equals `5`, `0` otherwise, and `NaN` cells stay `NaN`
(`analysis_df.loc[raw_vals.isna(), ...] = np.nan`). -/
def topbox (v : Option ℚ) : Option ℚ :=
  (cleanOneToFive v).map (fun x => if x = 5 then 1 else 0)

/-! ## Composite Builder -/

/-- Embeds one row of `analysis[func_cols].mean(axis=1)` from
`src/sem_analysis_real_data.py` (lines 71-72): pandas `mean` skips `NaN`
cells and returns `NaN` when every cell in the row is `NaN`. -/
def rowMean (xs : List (Option ℚ)) : Option ℚ :=
  let vals := xs.filterMap id
  if vals = [] then none else some (vals.sum / vals.length)

/-- Embeds the per-item recoding inside `compute_benefit_scores` in
`src/process_raw_data.py` (lines 181-188): a cell that is `NaN` or `99`
is skipped, otherwise it is converted by `(x - 1) * 1.5 + 1` and kept. -/
def convertItem (v : Option ℚ) : Option ℚ :=
  match v with
  | none => none
  | some x => if x = 99 then none else some ((x - 1) * (3 / 2) + 1)

/-- Embeds the per-category composite of `compute_benefit_scores` in
`src/process_raw_data.py` (lines 175-194): the mean of the kept
(converted) items, or `NaN` when no item was kept. -/
def computeBenefitScore (raws : List (Option ℚ)) : Option ℚ :=
  let values := raws.filterMap convertItem
  if values = [] then none else some (values.sum / values.length)

/-! ## Mediation classification (`src/sem_analysis_real_data.py`, lines 311-319) -/

/-- Qualitative mediation labels printed by the classification block:
`bothPaths` for the "Partial mediation" message, `fullOnly` for the
"Full mediation" message, `notSignificant` for "No significant mediation
detected". -/
inductive MedLabel where
  | bothPaths : MedLabel
  | fullOnly : MedLabel
  | notSignificant : MedLabel
deriving DecidableEq

/-- Embeds the classification block of `src/sem_analysis_real_data.py`
(lines 311-319).  Inputs: the Sobel p-value, the indirect effect `a*b`,
the total effect `c`, the direct effect `c_prime`, and
`model_b.pvalues` at the independent variable (the p-value of the DIRECT
path in the controlling regression).  When `sobel_p < 0.05` the code
computes `pct_mediated` as `(indirect / c) * 100` if `c != 0` else `0`
and prints it, then prints "Partial mediation" when `c_prime > 0.1` and
the direct-path p-value is below `0.05`, else "Full mediation";
otherwise it prints "No significant mediation detected" with no
percentage. -/
def classifyMediation (sobelP indirect c cPrime pDirect : ℚ) :
    MedLabel × Option ℚ :=
  if sobelP < 5 / 100 then
    let pct := if c ≠ 0 then indirect / c * 100 else 0
    if 1 / 10 < cPrime ∧ pDirect < 5 / 100 then (MedLabel.bothPaths, some pct)
    else (MedLabel.fullOnly, some pct)
  else (MedLabel.notSignificant, none)

/-! ## Factor sign flip (`src/full_sem_with_benefits.py`, lines 122-127) -/

/-- One fitted factor as the flip step sees it: its score column
(`factor_scores_raw` at column `i`) and the signed loadings of its top
attributes (the `signed_loading` entries of `factor_details`). -/
structure FactorData where
  scores : List ℚ
  topLoadings : List ℚ
deriving DecidableEq

/-- Embeds the flip step of `src/full_sem_with_benefits.py` (lines
122-127): take the top-5 signed loadings; if their mean is negative,
negate the score column.  The loading data is left untouched.
(`np.mean` of an empty list compares false with `< 0`, matching
division by zero giving `0` here.) -/
def flipStep (fd : FactorData) : FactorData :=
  let top := fd.topLoadings.take 5
  if top.sum / top.length < 0 then
    { fd with scores := fd.scores.map (fun x => -x) }
  else fd

/-! ## Segment gating -/

/-- Embeds the per-segment loops of `src/sem_analysis_real_data.py`
(lines 222-242, gate `if len(seg_data) >= 20`) and of
`src/full_sem_with_benefits.py` (lines 285-289, gate
`if len(seg_data) < 50: continue`): a partition is fit and appended to
the results exactly when its size reaches `minN`; otherwise the loop
moves on without appending anything.  `fit` abstracts the per-partition
OLS fit (beta and friends) over the partition data. -/
def segmentResults (minN : ℕ) (fit : List ℚ → ℚ)
    (parts : List (String × List ℚ)) : List (String × ℕ × ℚ) :=
  match parts with
  | [] => []
  | p :: rest =>
    if minN ≤ p.2.length then
      (p.1, p.2.length, fit p.2) :: segmentResults minN fit rest
    else segmentResults minN fit rest

/-! ## Path/Regression Engine and Mediation Analyzer

Real-valued closed forms of the `statsmodels` OLS fits used by
`src/sem_analysis_real_data.py` (an external library, per the spec an
opaque collaborator): for one and two regressors with intercept,
`model.params` and `model.bse` are the textbook centered-moment
formulas embedded below.  `scipy.stats.norm.cdf` and `scipy.stats.f.cdf`
are abstracted as function parameters. -/

noncomputable section

/-- Arithmetic mean of a list of reals. -/
def listMean (xs : List ℝ) : ℝ := xs.sum / xs.length

/-- Centered sum of squares of a sample. -/
def css (x : List ℝ) : ℝ := (x.map (fun v => (v - listMean x) ^ 2)).sum

/-- Centered cross product of a paired sample. -/
def ccp (x y : List ℝ) : ℝ :=
  ((x.zip y).map (fun p => (p.1 - listMean x) * (p.2 - listMean y))).sum

/-- Slope of the simple OLS regression of `y` on `x` with intercept:
the closed form of `sm.OLS(y, add_constant(x)).fit().params` at `x`. -/
def slopeOLS (x y : List ℝ) : ℝ := ccp x y / css x

/-- Intercept of the simple OLS regression of `y` on `x`. -/
def interceptOLS (x y : List ℝ) : ℝ :=
  listMean y - slopeOLS x y * listMean x

/-- Residual sum of squares of the simple OLS regression. -/
def rssOLS (x y : List ℝ) : ℝ :=
  ((x.zip y).map
    (fun p => (p.2 - (interceptOLS x y + slopeOLS x y * p.1)) ^ 2)).sum

/-- Standard error of the simple OLS slope, `sqrt(RSS/(n-2)/Sxx)`:
the closed form of `model.bse` at `x`. -/
def seSlopeOLS (x y : List ℝ) : ℝ :=
  Real.sqrt (rssOLS x y / ((x.length : ℝ) - 2) / css x)

/-- Determinant of the centered cross-product matrix of two regressors. -/
def detS (x1 x2 : List ℝ) : ℝ := css x1 * css x2 - ccp x1 x2 ^ 2

/-- Coefficient of the FIRST regressor in the OLS regression of `y` on
`x1, x2` with intercept (`model.params` at `x1`). -/
def coefFstOLS2 (x1 x2 y : List ℝ) : ℝ :=
  (css x2 * ccp x1 y - ccp x1 x2 * ccp x2 y) / detS x1 x2

/-- Coefficient of the SECOND regressor in the OLS regression of `y` on
`x1, x2` with intercept (`model.params` at `x2`). -/
def coefSndOLS2 (x1 x2 y : List ℝ) : ℝ :=
  (css x1 * ccp x2 y - ccp x1 x2 * ccp x1 y) / detS x1 x2

/-- Intercept of the two-regressor OLS fit. -/
def interceptOLS2 (x1 x2 y : List ℝ) : ℝ :=
  listMean y - coefFstOLS2 x1 x2 y * listMean x1 -
    coefSndOLS2 x1 x2 y * listMean x2

/-- Residual sum of squares of the two-regressor OLS fit. -/
def rssOLS2 (x1 x2 y : List ℝ) : ℝ :=
  ((x1.zip (x2.zip y)).map
    (fun p => (p.2.2 - (interceptOLS2 x1 x2 y + coefFstOLS2 x1 x2 y * p.1 +
      coefSndOLS2 x1 x2 y * p.2.1)) ^ 2)).sum

/-- Error variance estimate of the two-regressor fit, `RSS/(n-3)`. -/
def sigmaSqOLS2 (x1 x2 y : List ℝ) : ℝ :=
  rssOLS2 x1 x2 y / ((y.length : ℝ) - 3)

/-- Standard error of the SECOND coefficient,
`sqrt(sigma^2 * S11 / det)` (`model.bse` at `x2`). -/
def seSndOLS2 (x1 x2 y : List ℝ) : ℝ :=
  Real.sqrt (sigmaSqOLS2 x1 x2 y * css x1 / detS x1 x2)

/-- Result record of the Mediation Analyzer: the three fitted paths and
the Sobel test quantities. -/
structure MediationResult where
  a : ℝ
  se_a : ℝ
  b : ℝ
  se_b : ℝ
  c : ℝ
  c_prime : ℝ
  indirect : ℝ
  sobel_se : ℝ
  sobel_z : ℝ
  sobel_p : ℝ

/-- Embeds the mediation block of `src/sem_analysis_real_data.py`
(lines 273-301) over the standardized columns `iv`, `med`, `dv`:
`model_a` regresses the mediator on the IV (path `a` and its SE);
`model_b` regresses the DV on IV and mediator (`b` and its SE at the
mediator, `c_prime` at the IV); `model_c` regresses the DV on the IV
alone (total effect `c`); then `indirect = a * b`,
`sobel_se = sqrt(b^2 se_a^2 + a^2 se_b^2)`, `sobel_z = indirect /
sobel_se`, `sobel_p = 2 * (1 - norm.cdf(abs(sobel_z)))` with `Phi`
abstracting `scipy.stats.norm.cdf`. -/
def runMediation (Phi : ℝ → ℝ) (iv med dv : List ℝ) : MediationResult :=
  let a := slopeOLS iv med
  let seA := seSlopeOLS iv med
  let b := coefSndOLS2 iv med dv
  let seB := seSndOLS2 iv med dv
  let cPr := coefFstOLS2 iv med dv
  let c := slopeOLS iv dv
  let ind := a * b
  let sobelSe := Real.sqrt (b ^ 2 * seA ^ 2 + a ^ 2 * seB ^ 2)
  let z := ind / sobelSe
  { a := a, se_a := seA, b := b, se_b := seB, c := c, c_prime := cPr,
    indirect := ind, sobel_se := sobelSe, sobel_z := z,
    sobel_p := 2 * (1 - Phi |z|) }

/-- Embeds the nested-model comparison of `src/full_sem_with_benefits.py`
(lines 264-270).  Both models are fit on the same `analysis_complete`
sample with the same outcome; `df1 = len(factor_cols)` is the number of
factor columns added to the 3 funnel predictors,
`df2 = n - len(all_predictors) - 1` with
`all_predictors = 3 funnel + factor_cols`, the statistic is
`((ss_reduced - ss_full) / df1) / (ss_full / df2)` and the p-value is
`1 - f.cdf(f_stat, df1, df2)` with `Fcdf` abstracting `scipy.stats.f.cdf`. -/
def modelComparisonF (Fcdf : ℝ → ℕ → ℤ → ℝ) (ssReduced ssFull : ℝ)
    (nFactorCols n : ℕ) : ℝ × ℝ :=
  let df1 : ℕ := nFactorCols
  let nAllPredictors : ℕ := 3 + nFactorCols
  let df2 : ℤ := (n : ℤ) - nAllPredictors - 1
  let fStat : ℝ := ((ssReduced - ssFull) / df1) / (ssFull / df2)
  (fStat, 1 - Fcdf fStat df1 df2)

end

/-! ## Column Mapper (`dbt_project/scripts/extract_tdl_data.py`) -/

/-- Embeds the wave extraction of
`dbt_project/scripts/extract_tdl_data.py` (line 231):
`wave = int(row[WAVE_COL]) if row[WAVE_COL] else 1`.  The empty cell (the
only falsy string) yields wave `1`; any other cell is parsed as an
integer, and `none` models the `ValueError` (which aborts the run) for a
non-integer cell. -/
def parseWaveCell (s : String) : Option ℤ :=
  if s = "" then some 1 else s.toInt?

/-- Embeds `WAVE_TO_MONTH.get(wave, 'Unknown')` with the lookup table of
`dbt_project/scripts/extract_tdl_data.py` (lines 17-24). -/
def monthOf (w : ℤ) : String :=
  if w = 1 then "February"
  else if w = 2 then "March"
  else if w = 3 then "April"
  else if w = 4 then "May"
  else if w = 5 then "June"
  else if w = 6 then "July"
  else "Unknown"

/-- One emitted respondent record: the stable 1-based identifier, the
parsed wave, the derived month label, and the raw row it came from. -/
structure Respondent where
  respondent_id : ℕ
  wave : ℤ
  month : String
  cells : List String
deriving DecidableEq

/-- Embeds the row loop of `main` in
`dbt_project/scripts/extract_tdl_data.py` (lines 226-261): the counter
starts at `0` and is incremented before each row is processed, so the
first emitted record carries identifier `k = 1`; every row appends
exactly one record.  `none` models the run aborting (IndexError on an
empty row, or ValueError from `int(...)`). -/
def emitFrom (k : ℕ) (rows : List (List String)) : Option (List Respondent) :=
  match rows with
  | [] => some []
  | row :: rest =>
    match row.head? with
    | none => none
    | some cell =>
      match parseWaveCell cell with
      | none => none
      | some w =>
        match emitFrom (k + 1) rest with
        | none => none
        | some rs =>
          some ({ respondent_id := k, wave := w, month := monthOf w,
                  cells := row } :: rs)

/-- Embeds the full emission of `main`: one respondent per data row (the
header row is already consumed by `next(reader)` before the loop),
identifiers starting at `1`. -/
def emitRespondents (rows : List (List String)) : Option (List Respondent) :=
  emitFrom 1 rows

/-- Identifier bookkeeping for `emitFrom`: a successful run starting at
counter `k` emits one record per row whose identifiers are exactly
`k, k+1, ...`. -/
theorem emitFrom_ids (rows : List (List String)) :
    ∀ k out, emitFrom k rows = some out →
      out.map (fun r => r.respondent_id) = List.range' k rows.length := by
  induction rows with
  | nil =>
    intro k out h
    simp only [emitFrom] at h
    cases h
    rfl
  | cons row rest ih =>
    intro k out h
    simp only [emitFrom] at h
    split at h
    · cases h
    · split at h
      · cases h
      · split at h
        · cases h
        · rename_i w hp rs he
          cases h
          simp only [List.map_cons, List.length_cons, List.range'_succ,
            ih (k + 1) rs he]

/-! ## Theorems for claims C1-C3 -/

/-- Claim C1, counterexample: the claim that raw codes `0` and `99` are both
recoded to the missing marker for every rating-scale and battery cell is
false: `recode_funnel_variable` maps raw `0` to the numeric value `-0.5`,
and the factor-analysis benefit cleaning passes raw `99` through as the
numeric value `99`. -/
theorem recode_zero_counterexample :
    recode_funnel_variable (some 0) = some (-(1 / 2)) ∧
      (some (-(1 / 2)) : Option ℚ) ≠ none ∧
      benefitClean (some 99) = some 99 ∧ (some (99 : ℚ)) ≠ none := by
  refine ⟨by norm_num [recode_funnel_variable], by simp, ?_, by simp⟩
  norm_num [benefitClean]

/-- Claim C1 (amended): each cleaning site handles only part of `{0, 99}`:
`recode_funnel_variable` maps `99` and missing to missing but maps raw `0`
to the numeric value `-0.5`; the factor-analysis benefit cleaning maps `0`
to missing but passes `99` through; only the real-data SEM cleaning maps
both `0` and `99` to missing. -/
theorem recode_missing_policy :
    recode_funnel_variable none = none ∧
      recode_funnel_variable (some 99) = none ∧
      recode_funnel_variable (some 0) = some (-(1 / 2)) ∧
      benefitClean (some 0) = none ∧
      benefitClean (some 99) = some 99 ∧
      cleanRealData (some 0) = none ∧
      cleanRealData (some 99) = none := by
  refine ⟨rfl, by norm_num [recode_funnel_variable],
    by norm_num [recode_funnel_variable], by norm_num [benefitClean],
    by norm_num [benefitClean], by norm_num [cleanRealData],
    by norm_num [cleanRealData]⟩

/-- Claim C2: top-box binarization after missing-value cleaning sends `5`
to `1`, each of `1, 2, 3, 4` to `0`, missing to missing, and any value
outside the 1-5 range to missing. -/
theorem topbox_spec (v w : ℚ) (hv : v = 1 ∨ v = 2 ∨ v = 3 ∨ v = 4)
    (hw : w < 1 ∨ 5 < w) :
    topbox (some 5) = some 1 ∧ topbox (some v) = some 0 ∧
      topbox none = none ∧ topbox (some w) = none := by
  refine ⟨by norm_num [topbox, cleanOneToFive], ?_, rfl, ?_⟩
  · rcases hv with h | h | h | h <;> subst h <;> norm_num [topbox, cleanOneToFive]
  · have hc : cleanOneToFive (some w) = none := by
      show (if w < 1 ∨ 5 < w then none else some w) = none
      exact if_pos hw
    simp [topbox, hc]

/-- Witness for C2 at `v = 2`, `w = 99`. -/
theorem topbox_spec_witness :
    (((2 : ℚ) = 1 ∨ (2 : ℚ) = 2 ∨ (2 : ℚ) = 3 ∨ (2 : ℚ) = 4) ∧
      ((99 : ℚ) < 1 ∨ 5 < (99 : ℚ))) ∧
      (topbox (some 5) = some 1 ∧ topbox (some 2) = some 0 ∧
        topbox none = none ∧ topbox (some 99) = none) :=
  ⟨⟨by norm_num, by norm_num⟩, topbox_spec 2 99 (by norm_num) (by norm_num)⟩

/-- Claim C3: a composite equals the arithmetic mean of the row's
non-missing items (so `[4, missing, 2]` yields `3`, not `(4+0+2)/3 = 2`),
and a row with zero non-missing items yields a missing composite, not `0`
(both for the pandas row mean and for `compute_benefit_scores`). -/
theorem composite_mean_spec (xs ys : List (Option ℚ))
    (h : xs.filterMap id ≠ []) (h2 : ys.filterMap id = []) :
    rowMean xs =
        some ((xs.filterMap id).sum / (xs.filterMap id).length) ∧
      rowMean ys = none ∧ rowMean ys ≠ some 0 ∧
      computeBenefitScore ys = none ∧
      rowMean [some 4, none, some 2] = some 3 ∧ (3 : ℚ) ≠ (4 + 0 + 2) / 3 := by
  have hys : ∀ a ∈ ys, a = none := by
    intro a ha
    have := (List.filterMap_eq_nil_iff.mp h2) a ha
    simpa using this
  have hconv : ys.filterMap convertItem = [] := by
    apply List.filterMap_eq_nil_iff.mpr
    intro a ha
    rw [hys a ha]
    rfl
  refine ⟨?_, ?_, ?_, ?_, ?_, by norm_num⟩
  · simp only [rowMean, if_neg h]
  · simp only [rowMean, if_pos h2]
  · simp only [rowMean, if_pos h2]
    exact fun hcon => Option.noConfusion hcon
  · simp only [computeBenefitScore, if_pos hconv]
  · simp [rowMean]
    norm_num

/-- Witness for C3 at `xs = [4, missing, 2]`, `ys = [missing, missing]`. -/
theorem composite_mean_spec_witness :
    (([some (4 : ℚ), none, some 2].filterMap id ≠ []) ∧
      (([none, none] : List (Option ℚ)).filterMap id = [])) ∧
      (rowMean [some (4 : ℚ), none, some 2] =
          some (([some (4 : ℚ), none, some 2].filterMap id).sum /
            ([some (4 : ℚ), none, some 2].filterMap id).length) ∧
        rowMean ([none, none] : List (Option ℚ)) = none ∧
        rowMean ([none, none] : List (Option ℚ)) ≠ some 0 ∧
        computeBenefitScore ([none, none] : List (Option ℚ)) = none ∧
        rowMean [some 4, none, some 2] = some 3 ∧ (3 : ℚ) ≠ (4 + 0 + 2) / 3) :=
  ⟨⟨by simp, by simp⟩,
    composite_mean_spec [some 4, none, some 2] [none, none] (by simp) (by simp)⟩

/-! ## Theorems for claims C5, C7, C8 -/

/-- Claim C5, counterexample: the claim that the label 'partial' is
assigned exactly when both the direct effect and path b remain
significant is false: with a significant Sobel p-value, direct effect
`-0.5` significant at `p = 0.001` (and any path-b p-value; the code never
consults it), the code prints "Full mediation" because `-0.5 > 0.1`
fails; and with total effect `0` the proportion mediated is still
reported, as `0`. -/
theorem classify_mediation_counterexample :
    (classifyMediation (1 / 1000) (1 / 5) (2 / 5) (-(1 / 2)) (1 / 1000)).1 =
        MedLabel.fullOnly ∧
      ((1 : ℚ) / 1000 < 5 / 100) ∧
      (classifyMediation (1 / 1000) (1 / 5) 0 (1 / 2) (1 / 1000)).2 = some 0 := by
  refine ⟨?_, by norm_num, ?_⟩ <;> norm_num [classifyMediation]

/-- Claim C5 (amended): mediation is classified as significant exactly
when the Sobel p-value is below 0.05; within the significant branch the
proportion mediated is reported as `indirect/total * 100` when the total
effect is non-zero and as `0` when it is zero; the label 'partial' is
assigned exactly when the direct effect exceeds `0.1` AND the direct
effect's p-value is below 0.05 (path b's significance is never
consulted); otherwise 'full'.  The label and percentage are reported
together only in the significant branch. -/
theorem classify_mediation_amended (sp ind c cp pd : ℚ) :
    ((classifyMediation sp ind c cp pd).1 = MedLabel.notSignificant ↔
        ¬ sp < 5 / 100) ∧
      ((classifyMediation sp ind c cp pd).1 = MedLabel.bothPaths ↔
        sp < 5 / 100 ∧ 1 / 10 < cp ∧ pd < 5 / 100) ∧
      ((classifyMediation sp ind c cp pd).2 =
        if sp < 5 / 100 then some (if c ≠ 0 then ind / c * 100 else 0)
        else none) := by
  unfold classifyMediation
  split_ifs with h1 h2 <;> simp_all

/-- Claim C7, counterexample: the claim that the flip step negates both
the score column and the loading column (making the post-flip top-5
loading mean nonnegative and the step idempotent) is false: on a factor
with scores `[1]` and top-5 signed loadings all `-1`, the flipped output
still has top-5 loading mean `-1 < 0`, and re-running the flip step flips
the scores back, so it is not a no-op. -/
theorem flip_step_counterexample :
    (((flipStep ⟨[1], [-1, -1, -1, -1, -1]⟩).topLoadings.take 5).sum /
        ((flipStep ⟨[1], [-1, -1, -1, -1, -1]⟩).topLoadings.take 5).length < 0) ∧
      flipStep (flipStep ⟨[1], [-1, -1, -1, -1, -1]⟩) ≠
        flipStep ⟨[1], [-1, -1, -1, -1, -1]⟩ := by
  have hneg : (([(-1 : ℚ), -1, -1, -1, -1]).take 5).sum /
      (([(-1 : ℚ), -1, -1, -1, -1]).take 5).length < 0 := by norm_num
  have e1 : flipStep ⟨[1], [-1, -1, -1, -1, -1]⟩ = ⟨[-1], [-1, -1, -1, -1, -1]⟩ := by
    unfold flipStep
    rw [if_pos hneg]
    norm_num
  have e2 : flipStep ⟨[-1], [-1, -1, -1, -1, -1]⟩ = ⟨[1], [-1, -1, -1, -1, -1]⟩ := by
    unfold flipStep
    rw [if_pos hneg]
    norm_num
  rw [e1, e2]
  refine ⟨by norm_num, ?_⟩
  intro hcon
  have := congrArg FactorData.scores hcon
  simp at this
  norm_num at this

/-- Claim C7 (amended): if the mean of the top-5 signed loadings is
negative, the flip step negates the factor's score column ONLY; the
loading data keeps its sign, so re-running the step on its own output
negates the scores again (an involution on flagged factors, not a
no-op), while a factor with nonnegative top-5 loading mean is left
unchanged. -/
theorem flip_step_amended (fd fe : FactorData)
    (h : (fd.topLoadings.take 5).sum / (fd.topLoadings.take 5).length < 0)
    (h2 : ¬ (fe.topLoadings.take 5).sum / (fe.topLoadings.take 5).length < 0) :
    (flipStep fd).scores = fd.scores.map (fun x => -x) ∧
      (flipStep fd).topLoadings = fd.topLoadings ∧
      (flipStep (flipStep fd)).scores = fd.scores ∧
      flipStep fe = fe := by
  have e1 : flipStep fd = { fd with scores := fd.scores.map (fun x => -x) } := by
    unfold flipStep
    rw [if_pos h]
  have e2 : flipStep fe = fe := by
    unfold flipStep
    rw [if_neg h2]
  refine ⟨by rw [e1], by rw [e1], ?_, e2⟩
  rw [e1]
  unfold flipStep
  rw [if_pos h]
  simp

/-- Witness for C7 (amended) at a flagged and an unflagged factor. -/
theorem flip_step_amended_witness :
    ((((⟨[2], [-1, -1, -1, -1, -1]⟩ : FactorData).topLoadings.take 5).sum /
        ((⟨[2], [-1, -1, -1, -1, -1]⟩ : FactorData).topLoadings.take 5).length < 0) ∧
      ¬ (((⟨[2], [1, 1, 1, 1, 1]⟩ : FactorData).topLoadings.take 5).sum /
        ((⟨[2], [1, 1, 1, 1, 1]⟩ : FactorData).topLoadings.take 5).length < 0)) ∧
      ((flipStep ⟨[2], [-1, -1, -1, -1, -1]⟩).scores =
          ([2] : List ℚ).map (fun x => -x) ∧
        (flipStep ⟨[2], [-1, -1, -1, -1, -1]⟩).topLoadings = [-1, -1, -1, -1, -1] ∧
        (flipStep (flipStep ⟨[2], [-1, -1, -1, -1, -1]⟩)).scores = [2] ∧
        flipStep ⟨[2], [1, 1, 1, 1, 1]⟩ = ⟨[2], [1, 1, 1, 1, 1]⟩) :=
  ⟨⟨by norm_num, by norm_num⟩,
    flip_step_amended ⟨[2], [-1, -1, -1, -1, -1]⟩ ⟨[2], [1, 1, 1, 1, 1]⟩
      (by norm_num) (by norm_num)⟩

/-- Claim C8, counterexample: the claim that an underpowered partition is
reported as excluded in the output is false: a single partition of size 3
(below the minimum 20) produces an EMPTY results list - the partition is
omitted silently, with no exclusion entry of any kind. -/
theorem segment_gate_counterexample :
    segmentResults 20 (fun _ => 0) [("A", [1, 2, 3])] = [] ∧ (3 : ℕ) < 20 := by
  constructor
  · rfl
  · norm_num

/-- Claim C8 (amended): a partition below the minimum sample size is not
fit and never appears as a fitted row with coefficients, but it is
omitted silently: the results are exactly the fitted rows of the
partitions that reach the minimum, with no exclusion entries. -/
theorem segment_gate_amended (minN : ℕ) (fit : List ℚ → ℚ)
    (parts : List (String × List ℚ)) :
    segmentResults minN fit parts =
      (parts.filter (fun p => decide (minN ≤ p.2.length))).map
        (fun p => (p.1, p.2.length, fit p.2)) := by
  induction parts with
  | nil => rfl
  | cons p rest ih =>
    by_cases h : minN ≤ p.2.length
    · simp [segmentResults, List.filter_cons, h, ih]
    · simp [segmentResults, List.filter_cons, h, ih]

/-! ## Theorems for claims C4 and C6 -/

/-- Claim C4: in the Mediation Analyzer the indirect effect equals
`a * b`, with `a` the IV-to-mediator coefficient of the simple
regression and `b` the mediator-to-DV coefficient controlling for the
IV; the Sobel standard error equals `sqrt(b^2 SEa^2 + a^2 SEb^2)`;
`z = indirect / SE`; and the p-value equals the two-sided
standard-normal tail probability `2 * (1 - Phi(|z|))`. -/
theorem sobel_mediation_spec (Phi : ℝ → ℝ) (iv med dv : List ℝ) :
    (runMediation Phi iv med dv).a = slopeOLS iv med ∧
      (runMediation Phi iv med dv).b = coefSndOLS2 iv med dv ∧
      (runMediation Phi iv med dv).indirect =
        slopeOLS iv med * coefSndOLS2 iv med dv ∧
      (runMediation Phi iv med dv).sobel_se =
        Real.sqrt ((coefSndOLS2 iv med dv) ^ 2 * (seSlopeOLS iv med) ^ 2 +
          (slopeOLS iv med) ^ 2 * (seSndOLS2 iv med dv) ^ 2) ∧
      (runMediation Phi iv med dv).sobel_z =
        (runMediation Phi iv med dv).indirect /
          (runMediation Phi iv med dv).sobel_se ∧
      (runMediation Phi iv med dv).sobel_p =
        2 * (1 - Phi |(runMediation Phi iv med dv).sobel_z|) := by
  refine ⟨rfl, rfl, rfl, rfl, rfl, rfl⟩

/-- Claim C6: the nested-model F statistic reported for the
funnel-only versus funnel-plus-factors comparison equals
`((SSR_reduced - SSR_full) / q) / (SSR_full / df_full)` with `q` the
number of added predictors and `df_full = n - p_full - 1` where
`p_full = 3 + q`, and its p-value is the upper tail
`1 - Fcdf(F, q, df_full)` of the `F(q, df_full)` distribution. -/
theorem nested_f_spec (Fcdf : ℝ → ℕ → ℤ → ℝ) (ssR ssF : ℝ) (q n : ℕ) :
    (modelComparisonF Fcdf ssR ssF q n).1 =
        ((ssR - ssF) / q) / (ssF / (((n : ℤ) - (3 + q) - 1 : ℤ) : ℝ)) ∧
      (modelComparisonF Fcdf ssR ssF q n).2 =
        1 - Fcdf ((modelComparisonF Fcdf ssR ssF q n).1) q
          ((n : ℤ) - (3 + q) - 1) := by
  constructor
  · simp only [modelComparisonF]
    push_cast
    ring_nf
  · simp only [modelComparisonF]
    push_cast
    ring_nf

/-! ## Theorems for claims C9 and C10 -/

/-- Claim C9: a successful run of the column mapper emits exactly one
respondent per data row, and the identifier sequence is exactly
`1, 2, ..., n` in emission order - 1-based, gapless.  (The mapper is a
pure function of the rows, so the same input yields the same identifiers
on every rerun.) -/
theorem emit_ids_spec (rows : List (List String)) (out : List Respondent)
    (h : emitRespondents rows = some out) :
    out.length = rows.length ∧
      out.map (fun r => r.respondent_id) = List.range' 1 rows.length := by
  have hid := emitFrom_ids rows 1 out h
  refine ⟨?_, hid⟩
  have := congrArg List.length hid
  simpa using this

/-- Witness for C9 on a concrete three-row table. -/
theorem emit_ids_spec_witness :
    (emitRespondents [[""], ["", "a"], [""]] =
        some [⟨1, 1, "February", [""]⟩, ⟨2, 1, "February", ["", "a"]⟩,
          ⟨3, 1, "February", [""]⟩]) ∧
      (([⟨1, 1, "February", [""]⟩, ⟨2, 1, "February", ["", "a"]⟩,
          ⟨3, 1, "February", [""]⟩] : List Respondent).length =
          ([[""], ["", "a"], [""]] : List (List String)).length ∧
        ([⟨1, 1, "February", [""]⟩, ⟨2, 1, "February", ["", "a"]⟩,
          ⟨3, 1, "February", [""]⟩] : List Respondent).map
            (fun r => r.respondent_id) =
          List.range' 1 ([[""], ["", "a"], [""]] : List (List String)).length) :=
  ⟨by rfl, emit_ids_spec [[""], ["", "a"], [""]] _ (by rfl)⟩

/-- Claim C10: a data row whose wave cell is the empty string gets wave
`1` and hence the month label "February", not "Unknown"; the "Unknown"
label arises exactly for wave numbers outside the lookup table `1..6`,
which only a non-empty cell can produce (the empty cell always parses to
wave `1`). -/
theorem empty_wave_spec :
    parseWaveCell "" = some 1 ∧ monthOf 1 = "February" ∧
      monthOf 1 ≠ "Unknown" ∧
      (∀ w : ℤ, monthOf w = "Unknown" ↔ w < 1 ∨ 6 < w) := by
  refine ⟨by norm_num [parseWaveCell], rfl, by decide, ?_⟩
  intro w
  unfold monthOf
  split_ifs with h1 h2 h3 h4 h5 h6 <;>
    first
      | (subst_vars; constructor
         · intro hcon; exact absurd hcon (by decide)
         · intro hcon; omega)
      | (constructor
         · intro _; omega
         · intro _; rfl)

end JapanTDR
